import Mathlib

/-!
Shallow embedding of `src/agent_smith/computer/browser.py`
(class `HeadlessChromeBrowser`).

Each action method of the adapter is modelled as a pure function that
produces the ordered list of driver-level calls (`Event`s) it issues
against the Playwright page, together with its return value where one
exists.  Fallible driver calls are modelled as `Except String` values
supplied as parameters, mirroring Python exceptions.
-/

namespace AgentSmith

/-- Driver-level calls issued against the Playwright page, mouse and
keyboard objects. -/
inductive Event where
  | mouseClick (x y : Int) (button : String)
  | mouseWheel (dx dy : Int)
  | mouseMove (x y : Int)
  | mouseDown
  | mouseUp
  | keyDown (key : String)
  | keyPress (key : String)
  | keyUp (key : String)
  | goBack
  | goForward
  | pageScreenshot (fullPage : Bool)
  deriving DecidableEq, Repr

/-- The module-level dict `CUA_KEY_TO_PLAYWRIGHT_KEY`, verbatim from the
source (a Python dict literal with distinct keys, modelled as an
association list). -/
def CUA_KEY_TO_PLAYWRIGHT_KEY : List (String × String) :=
  [("/", "Divide"),
   ("\\", "Backslash"),
   ("alt", "Alt"),
   ("arrowdown", "ArrowDown"),
   ("arrowleft", "ArrowLeft"),
   ("arrowright", "ArrowRight"),
   ("arrowup", "ArrowUp"),
   ("backspace", "Backspace"),
   ("capslock", "CapsLock"),
   ("cmd", "Meta"),
   ("ctrl", "ControlOrMeta"),
   ("delete", "Delete"),
   ("end", "End"),
   ("enter", "Enter"),
   ("esc", "Escape"),
   ("home", "Home"),
   ("insert", "Insert"),
   ("option", "Alt"),
   ("pagedown", "PageDown"),
   ("pageup", "PageUp"),
   ("shift", "Shift"),
   ("space", " "),
   ("super", "Meta"),
   ("tab", "Tab"),
   ("win", "Meta")]

/-- Python's `str.lower()` on the ASCII key names used here: lower-case
every character. -/
def pyLower (s : String) : String :=
  String.mk (s.toList.map Char.toLower)

/-- `CUA_KEY_TO_PLAYWRIGHT_KEY.get(key.lower(), key)` from
`keypress` (line 137): case-insensitive lookup whose fallback is the
original, unlowered string. -/
def mapKey (key : String) : String :=
  (List.lookup (pyLower key) CUA_KEY_TO_PLAYWRIGHT_KEY).getD key

/-- The literal list `["Control", "Alt", "Shift", "Meta", "ControlOrMeta"]`
tested by `keypress` (line 138). -/
def MODIFIER_NAMES : List String :=
  ["Control", "Alt", "Shift", "Meta", "ControlOrMeta"]

/-- The membership test `mapped_key in [...]` of `keypress`. -/
def isModifier (k : String) : Bool :=
  MODIFIER_NAMES.contains k

/-- The classification loop of `keypress` (lines 133-141): iterate over
the input keys, map each through `mapKey`, and append it to the
`modifier_keys` list when the mapped value is a modifier, to the
`regular_keys` list otherwise (preserving input order in each list). -/
def classifyKeys : List String → List String × List String
  | [] => ([], [])
  | key :: rest =>
    let mapped_key := mapKey key
    let p := classifyKeys rest
    if isModifier mapped_key then
      (mapped_key :: p.1, p.2)
    else
      (p.1, mapped_key :: p.2)

/-- `HeadlessChromeBrowser.keypress` (lines 132-153): classify the keys,
press down all modifiers in order, press-and-release the regular keys in
order, then release the modifiers in reverse order. -/
def keypress (keys : List String) : List Event :=
  let p := classifyKeys keys
  let modifier_keys := p.1
  let regular_keys := p.2
  modifier_keys.map Event.keyDown
    ++ regular_keys.map Event.keyPress
    ++ modifier_keys.reverse.map Event.keyUp

/-- `HeadlessChromeBrowser.back` (line 171): `page.go_back()`. -/
def back : List Event := [Event.goBack]

/-- `HeadlessChromeBrowser.forward` (line 174): `page.go_forward()`. -/
def forward : List Event := [Event.goForward]

/-- The local dict `button_mapping` of `click` (line 112). -/
def button_mapping : List (String × String) :=
  [("left", "left"), ("right", "right")]

/-- `HeadlessChromeBrowser.click` (lines 103-114): dispatch on the button
name; `back` and `forward` delegate to history navigation, `wheel` issues
a wheel scroll with (x, y) as the delta, and anything else issues one
mouse click at (x, y) with the resolved button (unknown names default to
`left`). -/
def click (x y : Int) (button : String) : List Event :=
  if button = "back" then
    back
  else if button = "forward" then
    forward
  else if button = "wheel" then
    [Event.mouseWheel x y]
  else
    [Event.mouseClick x y ((List.lookup button button_mapping).getD "left")]

/-- A point of a drag path (`{"x": ..., "y": ...}` dict in the source). -/
structure Point where
  x : Int
  y : Int
  deriving DecidableEq, Repr

/-- `HeadlessChromeBrowser.drag` (lines 155-162): empty path returns
immediately; otherwise move to the first point, press the mouse, move
through the remaining points, and release. -/
def drag : List Point → List Event
  | [] => []
  | p :: rest =>
    [Event.mouseMove p.x p.y, Event.mouseDown]
      ++ rest.map (fun q => Event.mouseMove q.x q.y)
      ++ [Event.mouseUp]

/-- `HeadlessChromeBrowser.goto` (lines 165-169): attempt the navigation
(`navigate url`, which may raise); any exception is caught and printed.
The result is the outcome seen by the caller together with the printed
log lines: it is always `Except.ok`. -/
def goto (navigate : String → Except String Unit) (url : String) :
    Except String (List String) :=
  match navigate url with
  | Except.ok _ => Except.ok []
  | Except.error e =>
      Except.ok ["Error navigating to " ++ url ++ ": " ++ e]

/-- The base64 alphabet used by Python's `base64.b64encode`. -/
def base64Chars : List Char :=
  "ABCDEFGHIJKLMNOPQRSTUVWXYZabcdefghijklmnopqrstuvwxyz0123456789+/".toList

/-- The base64 digit for a 6-bit value. -/
def base64Char (n : Nat) : Char :=
  base64Chars.getD n '='

/-- Standard base64 of a byte sequence (the behaviour of Python's
`base64.b64encode`, RFC 4648 with padding). -/
def b64encode : List Nat → List Char
  | [] => []
  | [b1] =>
      [base64Char (b1 / 4), base64Char (b1 % 4 * 16), '=', '=']
  | [b1, b2] =>
      [base64Char (b1 / 4), base64Char (b1 % 4 * 16 + b2 / 16),
       base64Char (b2 % 16 * 4), '=']
  | b1 :: b2 :: b3 :: rest =>
      base64Char (b1 / 4) :: base64Char (b1 % 4 * 16 + b2 / 16)
        :: base64Char (b2 % 16 * 4 + b3 / 64) :: base64Char (b3 % 64)
        :: b64encode rest

/-- `HeadlessChromeBrowser.screenshot` (lines 98-101): capture with
`full_page=False` (the driver `pageShot` returns the PNG bytes for the
requested mode) and return the base64 encoding decoded as a string. -/
def screenshot (pageShot : Bool → List Nat) : List Event × String :=
  let png_bytes := pageShot false
  ([Event.pageScreenshot false], String.mk (b64encode png_bytes))

/-- The two release steps of `__aexit__`. -/
inductive TeardownStep where
  | closeBrowser
  | stopDriver
  deriving DecidableEq, Repr

/-- `HeadlessChromeBrowser.__aexit__` (lines 88-92): Python executes the
two statements in sequence, so an exception raised by
`self._browser.close()` propagates immediately and
`self._playwright.stop()` is never reached.  `browser` and `playwright`
model the truthiness tests `if self._browser:` / `if self._playwright:`;
`close` and `stop` model the possibly-raising driver calls.  Returns the
list of steps actually attempted and the outcome (the propagated
exception, if any). -/
def aexit (browser playwright : Bool) (close stop : Except String Unit) :
    List TeardownStep × Except String Unit :=
  if browser then
    match close with
    | Except.error e => ([TeardownStep.closeBrowser], Except.error e)
    | Except.ok _ =>
      if playwright then
        match stop with
        | Except.error e =>
            ([TeardownStep.closeBrowser, TeardownStep.stopDriver],
             Except.error e)
        | Except.ok _ =>
            ([TeardownStep.closeBrowser, TeardownStep.stopDriver],
             Except.ok ())
      else ([TeardownStep.closeBrowser], Except.ok ())
  else
    if playwright then
      match stop with
      | Except.error e => ([TeardownStep.stopDriver], Except.error e)
      | Except.ok _ => ([TeardownStep.stopDriver], Except.ok ())
    else ([], Except.ok ())

/-! ## Supporting lemmas -/

/-- The classification loop of `keypress` partitions the mapped keys:
it returns the modifiers and the regular keys, each filtered out of the
mapped input list in order. -/
theorem classifyKeys_eq (keys : List String) :
    classifyKeys keys =
      ((keys.map mapKey).filter (fun k => isModifier k),
       (keys.map mapKey).filter (fun k => !isModifier k)) := by
  induction keys with
  | nil => rfl
  | cons k ks ih =>
    simp only [classifyKeys, ih, List.map_cons, List.filter_cons]
    cases h : isModifier (mapKey k) <;> simp [h]

/-- `b64encode` produces four output characters for every (padded) group
of three input bytes. -/
theorem b64encode_length (bs : List Nat) :
    (b64encode bs).length = 4 * ((bs.length + 2) / 3) := by
  induction bs using b64encode.induct <;> simp_all [b64encode]
  omega

/-! ## Claims -/

/-- C1: for every key list, after mapping each name through the key
table, the modifier keys are pressed down in input order, then every
regular key is pressed-and-released in input order strictly between the
down-phase and the up-phase, then the modifiers are released in exactly
reversed order. -/
theorem C1_keypress_order (keys : List String) :
    keypress keys =
      ((keys.map mapKey).filter (fun k => isModifier k)).map Event.keyDown
        ++ ((keys.map mapKey).filter (fun k => !isModifier k)).map
            Event.keyPress
        ++ ((keys.map mapKey).filter (fun k => isModifier k)).reverse.map
            Event.keyUp := by
  simp [keypress, classifyKeys_eq]

/-- C2 counterexample: when closing the browser raises, the driver is
never stopped — the claimed independence of the two teardown steps fails
on the concrete input where both handles are present and `close` raises. -/
theorem C2_counterexample :
    TeardownStep.stopDriver ∉
      (aexit true true (Except.error "boom") (Except.ok ())).1 := by
  decide

/-- C2 (amended): the two release steps of `__aexit__` run sequentially
and dependently.  With both handles present, a failure closing the
browser propagates and prevents stopping the driver; only when closing
succeeds are both steps attempted, and the outcome is then that of the
stop call. -/
theorem C2_teardown_sequential (stop : Except String Unit) (e : String) :
    aexit true true (Except.error e) stop
      = ([TeardownStep.closeBrowser], Except.error e) ∧
    aexit true true (Except.ok ()) stop
      = ([TeardownStep.closeBrowser, TeardownStep.stopDriver], stop) := by
  refine ⟨rfl, ?_⟩
  cases stop with
  | ok u => cases u; rfl
  | error e => rfl

/-- C3: `click` with button "back" has exactly the effect of `back()`,
"forward" that of `forward()` (no mouse click in either case); "wheel"
issues a wheel scroll with the coordinates as the delta; any other
button issues one mouse click at (x, y) with the resolved button, and
names other than "left" and "right" resolve to "left". -/
theorem C3_click_dispatch (x y : Int) (button : String) :
    click x y "back" = back ∧
    click x y "forward" = forward ∧
    click x y "wheel" = [Event.mouseWheel x y] ∧
    click x y "left" = [Event.mouseClick x y "left"] ∧
    click x y "right" = [Event.mouseClick x y "right"] ∧
    (button ≠ "back" → button ≠ "forward" → button ≠ "wheel" →
      button ≠ "left" → button ≠ "right" →
      click x y button = [Event.mouseClick x y "left"]) := by
  refine ⟨rfl, rfl, rfl, rfl, rfl, ?_⟩
  intro h1 h2 h3 h4 h5
  have e4 : (button == "left") = false := beq_eq_false_iff_ne.mpr h4
  have e5 : (button == "right") = false := beq_eq_false_iff_ne.mpr h5
  simp [click, button_mapping, List.lookup, h1, h2, h3, e4, e5]

/-- C3 witness: the dispatch theorem applied at the concrete unrecognized
button name "middle". -/
theorem C3_click_dispatch_witness :
    click 5 7 "middle" = [Event.mouseClick 5 7 "left"] :=
  (C3_click_dispatch 5 7 "middle").2.2.2.2.2
    (by decide) (by decide) (by decide) (by decide) (by decide)

/-- C4: `drag []` performs no pointer events; `drag [p]` moves to p,
presses and releases there with no intermediate move; on a longer path
the pointer moves to the first point, presses, moves through the rest in
order, then releases. -/
theorem C4_drag_shape (p : Point) (ps : List Point) :
    drag [] = [] ∧
    drag [p] = [Event.mouseMove p.x p.y, Event.mouseDown, Event.mouseUp] ∧
    drag (p :: ps) =
      [Event.mouseMove p.x p.y, Event.mouseDown]
        ++ ps.map (fun q => Event.mouseMove q.x q.y)
        ++ [Event.mouseUp] :=
  ⟨rfl, rfl, rfl⟩

/-- C5: for every driver navigation behaviour and URL, `goto` returns
normally to its caller — any navigation error is caught and turned into
a printed log line, never re-raised. -/
theorem C5_goto_never_raises
    (navigate : String → Except String Unit) (url : String) :
    ∃ log, goto navigate url = Except.ok log := by
  unfold goto
  cases navigate url with
  | ok u => exact ⟨[], rfl⟩
  | error e => exact ⟨_, rfl⟩

/-- C6: for a single key, when its lowering is present in the mapping
table `keypress` presses and releases exactly the mapped identifier
(down/up for a modifier, a press for a regular key); when absent, the
original unlowered string is used unchanged. -/
theorem C6_key_mapping (k v : String) :
    (List.lookup (pyLower k) CUA_KEY_TO_PLAYWRIGHT_KEY = some v →
      keypress [k] =
        (if isModifier v then [Event.keyDown v, Event.keyUp v]
         else [Event.keyPress v])) ∧
    (List.lookup (pyLower k) CUA_KEY_TO_PLAYWRIGHT_KEY = none →
      keypress [k] =
        (if isModifier k then [Event.keyDown k, Event.keyUp k]
         else [Event.keyPress k])) := by
  constructor
  · intro h
    simp only [keypress, classifyKeys, mapKey, h, Option.getD_some]
    cases hm : isModifier v <;> simp [hm]
  · intro h
    simp only [keypress, classifyKeys, mapKey, h, Option.getD_none]
    cases hm : isModifier k <;> simp [hm]

/-- C6 witness: the mapping theorem applied at the mapped modifier name
"shift" and at the unmapped name "zzz". -/
theorem C6_key_mapping_witness :
    keypress ["shift"] = [Event.keyDown "Shift", Event.keyUp "Shift"] ∧
    keypress ["zzz"] = [Event.keyPress "zzz"] := by
  have h1 := (C6_key_mapping "shift" "Shift").1 (by decide)
  have h2 := (C6_key_mapping "zzz" "zzz").2 (by decide)
  exact ⟨h1.trans (by rfl), h2.trans (by rfl)⟩

/-- C7: `screenshot` captures only the current viewport — the single
driver call passes `full_page=False` — and returns the base64 encoding
of the captured PNG bytes as a string (four base64 characters per padded
three-byte group). -/
theorem C7_screenshot_viewport (pageShot : Bool → List Nat) :
    (screenshot pageShot).1 = [Event.pageScreenshot false] ∧
    Event.pageScreenshot true ∉ (screenshot pageShot).1 ∧
    (screenshot pageShot).2 = String.mk (b64encode (pageShot false)) ∧
    ((screenshot pageShot).2).length
      = 4 * (((pageShot false).length + 2) / 3) := by
  refine ⟨rfl, by simp [screenshot], rfl, ?_⟩
  simp [screenshot, String.length, b64encode_length]

/-- C8: `keypress` with an empty key list issues no keyboard events. -/
theorem C8_keypress_empty : keypress [] = [] := rfl

/-- C9: modifier classification is case-sensitive for names absent from
the table: "ctrl" maps to "ControlOrMeta" and is held down as a
modifier, while "control" is absent from the table, passes through as
the literal string, fails the exact-string modifier test and is
pressed-and-released as a regular key. -/
theorem C9_modifier_case_sensitive :
    keypress ["ctrl"]
      = [Event.keyDown "ControlOrMeta", Event.keyUp "ControlOrMeta"] ∧
    keypress ["control"] = [Event.keyPress "control"] :=
  ⟨rfl, rfl⟩

/-- C10: `click` with button "back" or "forward" ignores the coordinate
arguments entirely: any two coordinate pairs produce identical driver
call sequences. -/
theorem C10_click_ignores_coords (x1 y1 x2 y2 : Int) :
    click x1 y1 "back" = click x2 y2 "back" ∧
    click x1 y1 "forward" = click x2 y2 "forward" :=
  ⟨rfl, rfl⟩

end AgentSmith
